import Mathlib

/-!
# BirdProject — verification of the normalization–aggregation–reporting pipeline

Shallow embedding of the core logic of `src/generate_report.py` and
`src/classify_audio.py`: the trigram matcher, the response normalizer,
the aggregation engine, the report builder, and the ingestion guard.

JSON-like Python values are embedded as the inductive type `Json`; Python
floats are embedded as rationals (`ℚ`); Python dicts with insertion order
as association lists and Python sets as duplicate-free lists.
-/

/-- A Python/JSON-like value as it flows through the pipeline
(`json.loads` output, Mongo documents). Numbers are embedded as `ℚ`. -/
inductive Json where
  | null : Json
  | bool : Bool → Json
  | num  : ℚ → Json
  | str  : String → Json
  | arr  : List Json → Json
  | obj  : List (String × Json) → Json
deriving Inhabited

/-- First binding for a key in an association list (dict keys are unique,
so first = only). -/
def lookupA {α : Type} : List (String × α) → String → Option α
  | [], _ => none
  | (k', v) :: t, k => if k' = k then some v else lookupA t k

namespace Json

/-- Python truthiness of a value (`bool(x)`): `None`, `False`, `0`, `""`,
`[]`, `{}` are falsy, everything else truthy. -/
def truthy : Json → Bool
  | .null => false
  | .bool b => b
  | .num q => q ≠ 0
  | .str s => s ≠ ""
  | .arr l => !l.isEmpty
  | .obj l => !l.isEmpty

/-- Whether the value is a dict (`isinstance(x, dict)`). -/
def isObj : Json → Bool
  | .obj _ => true
  | _ => false

/-- Python `d.get(k)` observable semantics: returns `none` both when
the key is missing and when its value is `None`/JSON null (the two are
indistinguishable through `.get`).  On a non-dict, `.get` would raise
`AttributeError` in Python; every call site in the source guards with
`isinstance(..., dict)` or supplies a dict, so the `none` fallback here is
outside the exercised input space. -/
def pyGet (j : Json) (k : String) : Option Json :=
  match j with
  | .obj l =>
    match lookupA l k with
    | some .null => none
    | some v => some v
    | none => none
  | _ => none

end Json

/-- Python `a or d` where `a` is a `dict.get` result (`none` = Python
`None`): the value itself when truthy, else the default. -/
def pyOrJ (a : Option Json) (d : Json) : Json :=
  match a with
  | some v => if v.truthy then v else d
  | none => d

/-- Python `a or b` where both operands are `dict.get` results; keeps a
falsy final value (e.g. `""`) distinct from `None`, as Python does. -/
def pyOrV (a b : Option Json) : Option Json :=
  match a with
  | some v => if v.truthy then some v else b
  | none => b

/-- Python `str(x)` for the value kinds that reach a `str()` call in the
source (labels and audio ids, which are strings in practice).  Numeric
repr is approximated by the rational's `toString`. -/
def pyStr : Json → String
  | .null => "None"
  | .bool b => if b then "True" else "False"
  | .num q => toString q
  | .str s => s
  | .arr _ => "[...]"
  | .obj _ => "\x7b...\x7d"

/-- Python `str.strip()` (ASCII whitespace), implemented on the
character list so that it evaluates by kernel reduction. -/
def pyStrip (s : String) : String :=
  String.mk (((s.data.dropWhile Char.isWhitespace).reverse.dropWhile
    Char.isWhitespace).reverse)

/-- Python `str.lower()` (ASCII case mapping). -/
def pyLower (s : String) : String := String.mk (s.data.map Char.toLower)

/-! ## Trigram matcher (`generate_report.py`, lines 26–50) -/

/-- One step of collapsing whitespace runs (`re.sub(r"\s+", " ", s)`):
the flag records whether the previous kept character closed a
whitespace run. -/
def collapseWs : Bool → List Char → List Char
  | _, [] => []
  | prevWs, c :: t =>
    if c.isWhitespace then
      if prevWs then collapseWs true t
      else ' ' :: collapseWs true t
    else c :: collapseWs false t

/-- Source `norm(s)`: lower-case, strip, collapse internal whitespace runs to a
single space.  `Char.toLower` / `Char.isWhitespace` cover the ASCII cases
of Python's `str.lower` / `\s`. -/
def norm (s : String) : String :=
  String.mk (collapseWs false (pyStrip (pyLower s)).data)

/-- The padded character list `f"  {norm(s)}  "`. -/
def padded (s : String) : List Char :=
  (' ' :: ' ' :: (norm s).data) ++ [' ', ' ']

/-- Source `trigram_set(s)`: all overlapping 3-character substrings of the
padded, normalized string, as a set. -/
def trigram_set (s : String) : Finset String :=
  let cs := padded s
  if cs.length < 3 then ∅
  else ((List.range (cs.length - 2)).map
    (fun i => String.mk ((cs.drop i).take 3))).toFinset

/-- Source `trigram_similarity(a, b)`: Jaccard index of the two trigram sets;
0 when either set is empty. -/
def trigram_similarity (a b : String) : ℚ :=
  let A := trigram_set a
  let B := trigram_set b
  if A = ∅ ∨ B = ∅ then 0
  else ((A ∩ B).card : ℚ) / ((A ∪ B).card : ℚ)

/-- Source `fuzzy_match(query, candidates, min_score)`: the set of candidates
scoring at least `min_score` (the intermediate sort in the source does
not affect the resulting set). -/
def fuzzy_match (query : String) (candidates : List String)
    (min_score : ℚ) : Finset String :=
  (candidates.filter (fun c => min_score ≤ trigram_similarity query c)).toFinset

/-! ## Numeric coercion (`float(x)` as used by `safe_float` and the
normalizer's `score` handling) -/

/-- Value of a non-empty all-digit character list. -/
def digitsVal? (l : List Char) : Option ℕ :=
  if l ≠ [] ∧ l.all Char.isDigit then
    some (l.foldl (fun a c => a * 10 + (c.toNat - 48)) 0)
  else none

/-- Split at the first character satisfying `sep`; `none` when absent. -/
def splitFirst (sep : Char → Bool) : List Char → List Char × Option (List Char)
  | [] => ([], none)
  | c :: t =>
    if sep c then ([], some t)
    else
      let (pre, rest) := splitFirst sep t
      (c :: pre, rest)

/-- Unsigned decimal mantissa: `digits`, `digits.digits`, `digits.` or
`.digits` (at least one digit overall). -/
def parseMantissa? (l : List Char) : Option ℚ :=
  let (ip, fp?) := splitFirst (· = '.') l
  match fp? with
  | none => (digitsVal? ip).map (fun n => (n : ℚ))
  | some fp =>
    if (ip = [] ∧ fp = []) ∨ ¬ ip.all Char.isDigit ∨ ¬ fp.all Char.isDigit then none
    else some ((ip.foldl (fun a c => a * 10 + (c.toNat - 48)) 0 : ℕ) +
      (fp.foldl (fun a c => a * 10 + (c.toNat - 48)) 0 : ℕ) / (10 : ℚ) ^ fp.length)

/-- Signed decimal exponent. -/
def parseExp? : List Char → Option ℤ
  | '+' :: t => (digitsVal? t).map Int.ofNat
  | '-' :: t => (digitsVal? t).map (fun n => -(n : ℤ))
  | t => (digitsVal? t).map Int.ofNat

/-- CPython `float(str)` on finite decimal literals: surrounding
whitespace stripped, optional sign, decimal mantissa, optional exponent;
anything else fails.  (The `inf`/`nan`/underscore forms accepted by
CPython are non-finite or sugar and are not modelled.) -/
def pyFloatString? (s : String) : Option ℚ :=
  let l := (pyStrip s).data
  let sb : ℚ × List Char :=
    match l with
    | '+' :: t => (1, t)
    | '-' :: t => (-1, t)
    | t => (1, t)
  let (mant, exp?) := splitFirst (fun c => c = 'e' ∨ c = 'E') sb.2
  match parseMantissa? mant, exp? with
  | some m, none => some (sb.1 * m)
  | some m, some e => (parseExp? e).map (fun z => sb.1 * m * (10 : ℚ) ^ z)
  | none, _ => none

/-- Python `float(x)` on a JSON-like value: numbers pass through, booleans become
0/1, numeric strings are parsed; on anything else `float` raises, which
every call site catches with `try/except` mapping it to `None` — embedded
as `none`. -/
def pyFloat? : Json → Option ℚ
  | .num q => some q
  | .bool b => some (if b then 1 else 0)
  | .str s => pyFloatString? s
  | _ => none

/-- Source `safe_float(x)` (`generate_report.py` lines 53–59): `None` stays
absent, otherwise a guarded `float(x)`. -/
def safe_float (x : Option Json) : Option ℚ :=
  match x with
  | none => none
  | some v => pyFloat? v

/-! ## Response normalizer (`classify_audio.py`) -/

/-- Source `safe_json(resp_text)` (lines 30–34): the parsed document when the
external JSON parse succeeds (`parse?`), else the raw-echo fallback
`{"raw": resp_text}` — never an error. -/
def safe_json (parse? : Option Json) (resp_text : String) : Json :=
  match parse? with
  | some j => j
  | none => .obj [("raw", .str resp_text)]

/-- Field fallback used on a `best`/prediction dict:
`d.get("label") or d.get("taxon_code") or d.get("species")` for the
label, and a guarded `float(d.get("score"))` for the score. -/
def bestFields (b : Json) : Option Json × Option ℚ :=
  (pyOrV (b.pyGet "label") (pyOrV (b.pyGet "taxon_code") (b.pyGet "species")),
   (b.pyGet "score").bind pyFloat?)

/-- Best-label/best-score extraction (lines 163–187): first the single
`best` object, then — only when the label is still `None` — the first
element of a `predictions`/`results` list. -/
def extract_best (parsed : Json) : Option Json × Option ℚ :=
  match parsed with
  | .obj _ =>
    let s0 :=
      match parsed.pyGet "best" with
      | some b => if b.isObj then bestFields b else (none, none)
      | none => (none, none)
    if s0.1.isSome then s0
    else
      match pyOrV (parsed.pyGet "predictions") (parsed.pyGet "results") with
      | some (.arr preds) =>
        match preds with
        | [] => s0
        | top :: _ => if top.isObj then bestFields top else s0
      | _ => s0
  | _ => (none, none)

/-! ## Ingestion guard (`classify_audio.py` lines 63–66, 94, 194–210) -/

/-- A stored classification outcome (the fields that matter to the
uniqueness claim; the rest of the inserted document is audit metadata). -/
structure Outcome where
  best_label : Option Json
  best_score : Option ℚ
  raw : Json

/-- The `classifications` collection keyed by `audio_id`. -/
abbrev Store := List (String × Outcome)

/-- Duplicate-key failure of the unique index. -/
inductive CommitError where
  | conflict

/-- Modelled from the spec: the document store's unique-constrained
insert.  `classify_audio.py` creates a unique index on `audio_id`
(line 64) and stores each outcome with `insert_one` (line 194); the store
itself (MongoDB) is an external collaborator not under `src/`, so its
documented duplicate-key behaviour is modelled: an insert for an
identifier already present fails with a Conflict and leaves the store
unchanged; otherwise the outcome is appended. -/
def commitOutcome (store : Store) (audio_id : String) (o : Outcome) :
    Except CommitError Store :=
  if (lookupA store audio_id).isSome then .error .conflict
  else .ok (store ++ [(audio_id, o)])

/-- The skip-if-already-classified check (line 94). -/
def shouldProcess (store : Store) (audio_id : String) : Bool :=
  (lookupA store audio_id).isNone

/-! ## Aggregation engine (`generate_report.py` lines 99–160) -/

/-- One document of the `classifications` collection as fetched by the
report (projection: `audio_id`, `geo`, `raw`, `best_label`). -/
structure ClsDoc where
  fields : List (String × Json)

/-- Python `doc.get(k)` on a fetched document: pymongo delivers BSON null as
Python `None`, indistinguishable from a missing key through `.get`. -/
def ClsDoc.get (d : ClsDoc) (k : String) : Option Json :=
  match lookupA d.fields k with
  | some .null => none
  | some v => some v
  | none => none

/-- One per-species accumulator (the dict created by `agg.setdefault`,
lines 130–144). -/
structure Entry where
  scientific_name : String
  common_name : String
  label : String
  positive_segments : ℕ
  segments_total : ℕ
  confidence_sum : ℚ
  confidence_n : ℕ
  max_confidence : ℚ
  sample_lat : Option Json
  sample_lon : Option Json

/-- The aggregation state: the `agg` dict and the
`seen_audio_per_species` defaultdict-of-sets, both in insertion order. -/
structure Agg where
  entries : List (String × Entry)
  seen : List (String × List String)

/-- In-place update of the value at a key, keeping insertion order. -/
def updAssoc {α : Type} : List (String × α) → String → (α → α) → List (String × α)
  | [], _, _ => []
  | (k', v) :: t, k, f => if k' = k then (k', f v) :: t else (k', v) :: updAssoc t k f

/-- Python `d.setdefault(k, init)` followed by in-place mutation `f` of the
entry (visible through the dict). -/
def setdefaultThen {α : Type} (d : List (String × α)) (k : String)
    (init : α) (f : α → α) : List (String × α) :=
  if (lookupA d k).isSome then updAssoc d k f else d ++ [(k, f init)]

/-- Line 119: `label = r.get("label") or doc.get("best_label") or "unknown"`
(line 119). -/
def segLabel (doc : ClsDoc) (r : Json) : Json :=
  pyOrJ (r.pyGet "label") (pyOrJ (doc.get "best_label") (.str "unknown"))

/-- Line 120: `scientific = r.get("scientific_name") or ""`, as the
string it is used as. -/
def segScientific (r : Json) : String :=
  pyStr (pyOrJ (r.pyGet "scientific_name") (.str ""))

/-- Line 121: `common = r.get("common_name") or ""`. -/
def segCommon (r : Json) : String :=
  pyStr (pyOrJ (r.pyGet "common_name") (.str ""))

/-- Line 128: `species_key = scientific.strip() if scientific.strip() else
str(label).strip()` (line 128). -/
def segKey (doc : ClsDoc) (r : Json) : String :=
  let sc := pyStrip (segScientific r)
  if sc ≠ "" then sc else pyStrip (pyStr (segLabel doc r))

/-- The fresh accumulator passed to `setdefault` (lines 132–143). -/
def initEntry (scientific common labelStr : String) : Entry :=
  { scientific_name := pyStrip scientific
    common_name := pyStrip common
    label := pyStrip labelStr
    positive_segments := 0
    segments_total := 0
    confidence_sum := 0
    confidence_n := 0
    max_confidence := 0
    sample_lat := none
    sample_lon := none }

/-- The per-segment accumulator update (lines 146–157): bump totals and
the confidence sum/count, raise the max on strict improvement, count the
segment as positive iff `confidence >= threshold`, and capture the first
non-null sample coordinate. -/
def updSeg (threshold c : ℚ) (geo : Json) (e : Entry) : Entry :=
  let e1 := { e with segments_total := e.segments_total + 1
                     confidence_sum := e.confidence_sum + c
                     confidence_n := e.confidence_n + 1 }
  let e2 := if e1.max_confidence < c then { e1 with max_confidence := c } else e1
  let e3 := if threshold ≤ c then
      { e2 with positive_segments := e2.positive_segments + 1 } else e2
  if e3.sample_lat.isNone then
    { e3 with sample_lat := geo.pyGet "lat", sample_lon := geo.pyGet "lon" }
  else e3

/-- Python `set.add` on a set embedded as a duplicate-free list. -/
def addToSet (l : List String) (x : String) : List String :=
  if x ∈ l then l else l ++ [x]

/-- Lines 159–160: `seen_audio_per_species[species_key].add(str(audio_id))` on the
defaultdict (lines 159–160). -/
def updSeen (s : List (String × List String)) (k x : String) :
    List (String × List String) :=
  setdefaultThen s k [] (fun l => addToSet l x)

/-- The body of the inner `for r in results` loop (lines 115–160):
non-dict entries are skipped, a segment without a parseable confidence is
dropped before any state change, otherwise the keyed accumulator and the
seen-audio set are updated. -/
def processSegment (threshold : ℚ) (doc : ClsDoc) (geo : Json)
    (audio_id : Option Json) (st : Agg) (r : Json) : Agg :=
  if r.isObj then
    match safe_float (r.pyGet "confidence") with
    | none => st
    | some c =>
      let key := segKey doc r
      let entries := setdefaultThen st.entries key
        (initEntry (segScientific r) (segCommon r) (pyStr (segLabel doc r)))
        (updSeg threshold c geo)
      let seen :=
        match audio_id with
        | some aid => if aid.truthy then updSeen st.seen key (pyStr aid) else st.seen
        | none => st.seen
      { entries := entries, seen := seen }
  else st

/-- The `results` extraction of lines 104–111: `raw = doc.get("raw") or
{}`, then the top-level `results` key when `raw` is a dict. -/
def resultsOfDoc (doc : ClsDoc) : Option Json :=
  if (pyOrJ (doc.get "raw") (.obj [])).isObj then
    (pyOrJ (doc.get "raw") (.obj [])).pyGet "results"
  else none

/-- The body of the outer `for doc in cls_docs` loop (lines 102–160):
segments are read only from the top-level `results` list of the raw
payload; a missing, non-list or empty `results` contributes nothing. -/
def processDoc (threshold : ℚ) (st : Agg) (doc : ClsDoc) : Agg :=
  match resultsOfDoc doc with
  | some (.arr l) =>
    if l.isEmpty then st
    else l.foldl (processSegment threshold doc (pyOrJ (doc.get "geo") (.obj []))
      (doc.get "audio_id")) st
  | _ => st

/-- The empty aggregation state. -/
def emptyAgg : Agg := { entries := [], seen := [] }

/-- The whole aggregation pass over all classification documents. -/
def aggregate (threshold : ℚ) (docs : List ClsDoc) : Agg :=
  docs.foldl (processDoc threshold) emptyAgg

/-! ## Report builder (`generate_report.py` lines 162–245) -/

/-- One CSV row (the 11 fixed output fields). -/
structure Row where
  scientific_name : String
  common_name : String
  label : String
  audio_files_count : ℕ
  positive_segments : ℕ
  segments_total : ℕ
  max_confidence : ℚ
  avg_confidence : ℚ
  observations_count : ℕ
  sample_lat : Option Json
  sample_lon : Option Json

/-- Round to nearest integer, ties to even (Python `round`; the binary
representation error of CPython's float round is not modelled). -/
def rndHalfEven (x : ℚ) : ℤ :=
  if Int.fract x < 1/2 then ⌊x⌋
  else if 1/2 < Int.fract x then ⌊x⌋ + 1
  else if ⌊x⌋ % 2 = 0 then ⌊x⌋ else ⌊x⌋ + 1

/-- Python `round(x, 4)`. -/
def round4 (x : ℚ) : ℚ := (rndHalfEven (x * 10000) : ℚ) / 10000

/-- Build one report row from an aggregate entry (lines 168–191).
`obs_counter` stands for the external
`field_observations.count_documents({"taxon_code": ·})` query. -/
def rowOfEntry (obs_counter : String → ℕ) (seen : List (String × List String))
    (species_key : String) (e : Entry) : Row :=
  let avg_conf : ℚ := if e.confidence_n ≠ 0 then e.confidence_sum / e.confidence_n else 0
  let c0 := obs_counter species_key
  let obs_count := if c0 = 0 ∧ e.label ≠ "" then obs_counter e.label else c0
  { scientific_name := if e.scientific_name ≠ "" then e.scientific_name else species_key
    common_name := e.common_name
    label := e.label
    audio_files_count := ((lookupA seen species_key).getD []).length
    positive_segments := e.positive_segments
    segments_total := e.segments_total
    max_confidence := round4 e.max_confidence
    avg_confidence := round4 avg_conf
    observations_count := obs_count
    sample_lat := e.sample_lat
    sample_lon := e.sample_lon }

/-- Lines 162–191: only species with at least one positive segment
become rows, in dict insertion order. -/
def buildRows (obs_counter : String → ℕ) (agg : Agg) : List Row :=
  (agg.entries.filter (fun p => !decide (p.2.positive_segments ≤ 0))).map
    (fun p => rowOfEntry obs_counter agg.seen p.1 p.2)

/-- Lines 193–199: `"(unknown)"` for empty common names, strip both
name fields. -/
def cleanRow (r : Row) : Row :=
  let cn := if r.common_name = "" then "(unknown)" else r.common_name
  { r with scientific_name := pyStrip r.scientific_name, common_name := pyStrip cn }

/-- Lines 201–217: the optional fuzzy species filter.  A row survives if
one of its three names is in the globally matched candidate set, or its
scientific or common name individually scores at least 0.35 against the
query. -/
def filterRows (query? : Option String) (rows : List Row) : List Row :=
  match query? with
  | none => rows
  | some query =>
    if query = "" then rows
    else
      let candidates := rows.flatMap
        (fun r => [r.scientific_name, r.common_name, r.label])
      let allowed := fuzzy_match query candidates (35 / 100)
      rows.filter (fun r =>
        decide (r.scientific_name ∈ allowed) || decide (r.common_name ∈ allowed) ||
        decide (r.label ∈ allowed) ||
        decide ((35 : ℚ) / 100 ≤ trigram_similarity query r.scientific_name) ||
        decide ((35 : ℚ) / 100 ≤ trigram_similarity query r.common_name))

/-- Lexicographic ≤ on a `(positive_segments, max_confidence)` sort
key, matching Python tuple comparison. -/
def keyLE (x y : ℕ × ℚ) : Bool :=
  decide (x.1 < y.1) || (x.1 == y.1 && decide (x.2 ≤ y.2))

/-- The sort key of line 220. -/
def rowKey (r : Row) : ℕ × ℚ := (r.positive_segments, r.max_confidence)

/-- Line 220: `rows.sort(key=lambda r: (positive_segments,
max_confidence), reverse=True)` — stable descending lexicographic sort. -/
def sortRows (rows : List Row) : List Row :=
  rows.mergeSort (fun a b => keyLE (rowKey b) (rowKey a))

/-- Lines 222–223: `if args.top_n and args.top_n > 0:
rows = rows[:args.top_n]`. -/
def truncRows (topN : ℤ) (rows : List Row) : List Row :=
  if 0 < topN then rows.take topN.toNat else rows

/-- The full report pipeline of `main` (aggregation → row building →
cleaning → optional fuzzy filter → sort → truncation); the CSV writer
keeps row order and content unchanged. -/
def generate_report (threshold : ℚ) (obs_counter : String → ℕ)
    (species_query : Option String) (topN : ℤ) (docs : List ClsDoc) : List Row :=
  truncRows topN (sortRows (filterRows species_query
    ((buildRows obs_counter (aggregate threshold docs)).map cleanRow)))

/-- The `positive_segments` of the accumulator at a key (0 when absent —
also the value a fresh accumulator starts from). -/
def posAt (entries : List (String × Entry)) (k : String) : ℕ :=
  match lookupA entries k with
  | some e => e.positive_segments
  | none => 0

/-- The two data-model invariants on one accumulator entry:
`positive_segments ≤ segments_total` and `confidence_n ≤ segments_total`. -/
def entryInv (e : Entry) : Bool :=
  decide (e.positive_segments ≤ e.segments_total) &&
  decide (e.confidence_n ≤ e.segments_total)

/-- The invariant over every entry of the aggregation state. -/
def aggInv (st : Agg) : Bool := st.entries.all (fun p => entryInv p.2)

/-! ## Theorems -/

theorem padded_length (s : String) : (padded s).length = (norm s).data.length + 4 := by
  simp [padded]

theorem trigram_set_nonempty (s : String) : (trigram_set s).Nonempty := by
  unfold trigram_set
  have h4 : (padded s).length = (norm s).data.length + 4 := padded_length s
  simp only
  rw [if_neg (by omega)]
  refine ⟨String.mk (((padded s).drop 0).take 3), ?_⟩
  rw [List.mem_toFinset, List.mem_map]
  exact ⟨0, by rw [List.mem_range]; omega, rfl⟩

theorem trigram_similarity_comm (a b : String) :
    trigram_similarity a b = trigram_similarity b a := by
  unfold trigram_similarity
  by_cases hA : trigram_set a = ∅ <;> by_cases hB : trigram_set b = ∅ <;>
    simp [hA, hB, Finset.inter_comm, Finset.union_comm]

theorem trigram_similarity_self (a : String) (h : (trigram_set a).Nonempty) :
    trigram_similarity a a = 1 := by
  unfold trigram_similarity
  simp only
  rw [if_neg (by simp [h.ne_empty]), Finset.inter_self, Finset.union_self]
  have hc : ((trigram_set a).card : ℚ) ≠ 0 := by
    exact_mod_cast (Finset.card_pos.mpr h).ne'
  exact div_self hc

theorem lookupA_updAssoc {α : Type} (d : List (String × α)) (k : String)
    (f : α → α) : lookupA (updAssoc d k f) k = (lookupA d k).map f := by
  induction d with
  | nil => rfl
  | cons p t ih =>
    obtain ⟨k', v⟩ := p
    by_cases h : k' = k <;> simp [updAssoc, lookupA, h, ih]

theorem lookupA_append_none {α : Type} (d : List (String × α)) (k : String)
    (x : α) (h : lookupA d k = none) :
    lookupA (d ++ [(k, x)]) k = some x := by
  induction d with
  | nil => simp [lookupA]
  | cons p t ih =>
    obtain ⟨k', v⟩ := p
    by_cases hk : k' = k
    · simp [lookupA, hk] at h
    · simp only [lookupA, hk, if_false] at h
      simpa [lookupA, hk] using ih h

theorem lookupA_setdefaultThen {α : Type} (d : List (String × α)) (k : String)
    (init : α) (f : α → α) :
    lookupA (setdefaultThen d k init f) k = some (f ((lookupA d k).getD init)) := by
  unfold setdefaultThen
  cases h : lookupA d k with
  | some v => simp [h, lookupA_updAssoc d k f]
  | none => simp [h, lookupA_append_none d k (f init) h]

theorem updSeg_positive (threshold c : ℚ) (geo : Json) (e : Entry) :
    (updSeg threshold c geo e).positive_segments =
      e.positive_segments + (if threshold ≤ c then 1 else 0) := by
  unfold updSeg
  dsimp only
  split_ifs <;> rfl

theorem updSeg_total (threshold c : ℚ) (geo : Json) (e : Entry) :
    (updSeg threshold c geo e).segments_total = e.segments_total + 1 := by
  unfold updSeg
  dsimp only
  split_ifs <;> rfl

theorem updSeg_n (threshold c : ℚ) (geo : Json) (e : Entry) :
    (updSeg threshold c geo e).confidence_n = e.confidence_n + 1 := by
  unfold updSeg
  dsimp only
  split_ifs <;> rfl

/-- C1: a segment with a parseable confidence increments the species'
`positive_segments` by exactly 1 when `confidence >= threshold`
(inclusive boundary) and by 0 otherwise. -/
theorem positive_iff_confidence_ge_threshold (threshold c : ℚ) (doc : ClsDoc)
    (geo : Json) (aid : Option Json) (st : Agg) (r : Json)
    (hobj : r.isObj = true) (hc : safe_float (r.pyGet "confidence") = some c) :
    posAt (processSegment threshold doc geo aid st r).entries (segKey doc r) =
      posAt st.entries (segKey doc r) + (if threshold ≤ c then 1 else 0) := by
  unfold processSegment
  rw [hobj, hc]
  cases h : lookupA st.entries (segKey doc r) <;>
    simp [posAt, h, initEntry, lookupA_setdefaultThen, updSeg_positive]

/-- C1 witness: with threshold 0.30 and a segment whose confidence is
exactly 0.30, the positive count goes from 0 to 1. -/
theorem positive_iff_confidence_ge_threshold_witness :
    posAt (processSegment (30/100) ⟨[]⟩ (.obj []) none emptyAgg
        (.obj [("label", .str "robin"), ("confidence", .num (30/100))])).entries
      (segKey ⟨[]⟩ (.obj [("label", .str "robin"), ("confidence", .num (30/100))])) =
    posAt emptyAgg.entries
      (segKey ⟨[]⟩ (.obj [("label", .str "robin"), ("confidence", .num (30/100))])) +
      (if (30/100 : ℚ) ≤ 30/100 then 1 else 0) :=
  positive_iff_confidence_ge_threshold (30/100) (30/100) ⟨[]⟩ (.obj []) none emptyAgg
    (.obj [("label", .str "robin"), ("confidence", .num (30/100))])
    rfl rfl

theorem entryInv_updSeg (threshold c : ℚ) (geo : Json) (e : Entry)
    (h : entryInv e = true) : entryInv (updSeg threshold c geo e) = true := by
  simp only [entryInv, Bool.and_eq_true, decide_eq_true_eq] at h ⊢
  obtain ⟨h1, h2⟩ := h
  refine ⟨?_, ?_⟩
  · rw [updSeg_positive, updSeg_total]
    split <;> omega
  · rw [updSeg_n, updSeg_total]
    omega

theorem all_updAssoc {α : Type} (P : α → Bool) (d : List (String × α))
    (k : String) (f : α → α) (hf : ∀ a, P a = true → P (f a) = true)
    (hd : d.all (fun p => P p.2) = true) :
    (updAssoc d k f).all (fun p => P p.2) = true := by
  induction d with
  | nil => rfl
  | cons p t ih =>
    obtain ⟨k', v⟩ := p
    simp only [List.all_cons, Bool.and_eq_true] at hd
    by_cases h : k' = k <;>
      simp [updAssoc, h, List.all_cons, hd, ih hd.2, hf _ hd.1]

theorem all_setdefaultThen {α : Type} (P : α → Bool) (d : List (String × α))
    (k : String) (init : α) (f : α → α)
    (hf : ∀ a, P a = true → P (f a) = true) (hi : P (f init) = true)
    (hd : d.all (fun p => P p.2) = true) :
    (setdefaultThen d k init f).all (fun p => P p.2) = true := by
  unfold setdefaultThen
  split
  · exact all_updAssoc P d k f hf hd
  · simp [List.all_append, hd, hi]

theorem aggInv_processSegment (threshold : ℚ) (doc : ClsDoc) (geo : Json)
    (aid : Option Json) (st : Agg) (r : Json) (h : aggInv st = true) :
    aggInv (processSegment threshold doc geo aid st r) = true := by
  unfold processSegment
  split
  · cases hc : safe_float (r.pyGet "confidence") with
    | none => exact h
    | some c =>
      simp only [aggInv]
      exact all_setdefaultThen _ _ _ _ _
        (fun a ha => entryInv_updSeg threshold c geo a ha)
        (entryInv_updSeg threshold c geo _ (by simp [entryInv, initEntry])) h
  · exact h

theorem foldl_preserve {σ β : Type} (P : σ → Bool) (f : σ → β → σ)
    (hf : ∀ s b, P s = true → P (f s b) = true) :
    ∀ (l : List β) (s : σ), P s = true → P (l.foldl f s) = true := by
  intro l
  induction l with
  | nil => exact fun s hs => hs
  | cons b t ih => exact fun s hs => ih (f s b) (hf s b hs)

theorem aggInv_processDoc (threshold : ℚ) (st : Agg) (doc : ClsDoc)
    (h : aggInv st = true) : aggInv (processDoc threshold st doc) = true := by
  unfold processDoc
  split
  · split
    · exact h
    · exact foldl_preserve aggInv _
        (fun s b hs => aggInv_processSegment threshold doc _ _ s b hs) _ st h
  · exact h

/-- C4: every accumulator entry keeps `positive_segments ≤ segments_total`
and `confidence_n ≤ segments_total` — each segment step preserves the
invariant (so it holds after every segment is folded in), and the full
aggregation from any document set satisfies it. -/
theorem aggregate_invariants (threshold : ℚ) :
    (∀ (doc : ClsDoc) (geo : Json) (aid : Option Json) (st : Agg) (r : Json),
      aggInv st = true → aggInv (processSegment threshold doc geo aid st r) = true) ∧
    (∀ docs : List ClsDoc, aggInv (aggregate threshold docs) = true) := by
  constructor
  · exact fun doc geo aid st r h => aggInv_processSegment threshold doc geo aid st r h
  · intro docs
    exact foldl_preserve aggInv (processDoc threshold)
      (fun s b hs => aggInv_processDoc threshold s b hs) docs emptyAgg rfl

/-- C4 witness: the invariant after one concrete segment step and after
one concrete aggregation run. -/
theorem aggregate_invariants_witness :
    aggInv (processSegment (30/100) ⟨[]⟩ (.obj []) none emptyAgg
      (.obj [("label", .str "robin"), ("confidence", .num (8/10))])) = true ∧
    aggInv (aggregate (30/100) [⟨[("audio_id", .str "a1"),
      ("raw", .obj [("results", .arr [.obj [("label", .str "robin"),
        ("confidence", .num (8/10))]])])]⟩]) = true :=
  ⟨(aggregate_invariants (30/100)).1 ⟨[]⟩ (.obj []) none emptyAgg
      (.obj [("label", .str "robin"), ("confidence", .num (8/10))]) rfl,
   (aggregate_invariants (30/100)).2 [⟨[("audio_id", .str "a1"),
      ("raw", .obj [("results", .arr [.obj [("label", .str "robin"),
        ("confidence", .num (8/10))]])])]⟩]⟩

/-- C2: once an outcome is committed for a recording identifier, a second
commit for the same identifier fails with a conflict and the stored
outcome remains the first one. -/
theorem commit_second_conflicts (store store1 : Store) (audio_id : String)
    (o1 o2 : Outcome) (h : commitOutcome store audio_id o1 = .ok store1) :
    commitOutcome store1 audio_id o2 = .error .conflict ∧
    lookupA store1 audio_id = some o1 := by
  unfold commitOutcome at h ⊢
  by_cases hs : (lookupA store audio_id).isSome = true
  · rw [if_pos hs] at h
    exact absurd h (by simp)
  · rw [if_neg hs] at h
    have hnone : lookupA store audio_id = none := Option.not_isSome_iff_eq_none.mp hs
    cases h
    have hlook : lookupA (store ++ [(audio_id, o1)]) audio_id = some o1 :=
      lookupA_append_none store audio_id o1 hnone
    exact ⟨by rw [if_pos (by simp [hlook])], hlook⟩

/-- C2 witness: a concrete first commit succeeds, the second conflicts
and the first outcome is still the stored one. -/
theorem commit_second_conflicts_witness :
    commitOutcome [("rec1", ⟨some (.str "robin"), some (9/10), .null⟩)] "rec1"
        ⟨some (.str "eagle"), some (1/10), .null⟩ = .error .conflict ∧
    lookupA [("rec1", (⟨some (.str "robin"), some (9/10), .null⟩ : Outcome))] "rec1"
      = some ⟨some (.str "robin"), some (9/10), .null⟩ :=
  commit_second_conflicts [] [("rec1", ⟨some (.str "robin"), some (9/10), .null⟩)]
    "rec1" ⟨some (.str "robin"), some (9/10), .null⟩
    ⟨some (.str "eagle"), some (1/10), .null⟩ rfl

theorem keyLE_trans (x y z : ℕ × ℚ) (h1 : keyLE x y = true)
    (h2 : keyLE y z = true) : keyLE x z = true := by
  simp only [keyLE, Bool.or_eq_true, Bool.and_eq_true, decide_eq_true_eq,
    beq_iff_eq] at h1 h2 ⊢
  rcases h1 with h1 | ⟨he1, hl1⟩ <;> rcases h2 with h2 | ⟨he2, hl2⟩
  · exact Or.inl (h1.trans h2)
  · exact Or.inl (by omega)
  · exact Or.inl (by omega)
  · exact Or.inr ⟨he1.trans he2, hl1.trans hl2⟩

theorem keyLE_total (x y : ℕ × ℚ) : (keyLE x y || keyLE y x) = true := by
  simp only [keyLE, Bool.or_eq_true, Bool.and_eq_true, decide_eq_true_eq,
    beq_iff_eq]
  rcases lt_trichotomy x.1 y.1 with h | h | h
  · exact Or.inl (Or.inl h)
  · rcases le_total x.2 y.2 with hq | hq
    · exact Or.inl (Or.inr ⟨h, hq⟩)
    · exact Or.inr (Or.inr ⟨h.symm, hq⟩)
  · exact Or.inr (Or.inl h)

/-- C3: the report sort is a permutation of its input ordered descending
by the pair `(positive_segments, max_confidence)` — primary key first,
`max_confidence` breaking ties — and truncation keeps exactly the first
`topN` sorted rows when `topN > 0` and all rows when `topN` is 0. -/
theorem sort_and_truncate_spec (rows : List Row) (topN : ℤ) :
    (sortRows rows).Perm rows ∧
    (sortRows rows).Pairwise (fun a b => keyLE (rowKey b) (rowKey a) = true) ∧
    (0 < topN → truncRows topN (sortRows rows) = (sortRows rows).take topN.toNat) ∧
    truncRows 0 (sortRows rows) = sortRows rows := by
  refine ⟨List.mergeSort_perm rows _, ?_, ?_, ?_⟩
  · exact List.sorted_mergeSort
      (fun a b c hab hbc => keyLE_trans (rowKey c) (rowKey b) (rowKey a) hbc hab)
      (fun a b => keyLE_total (rowKey b) (rowKey a)) rows
  · intro h
    simp [truncRows, h]
  · simp [truncRows]

/-- C3 witness: two concrete rows tied on `positive_segments`, with
`topN = 1`. -/
theorem sort_and_truncate_spec_witness :
    (sortRows [⟨"a", "", "a", 1, 5, 5, 6/10, 6/10, 0, none, none⟩,
        ⟨"b", "", "b", 1, 5, 5, 9/10, 9/10, 0, none, none⟩]).Perm
      [⟨"a", "", "a", 1, 5, 5, 6/10, 6/10, 0, none, none⟩,
        ⟨"b", "", "b", 1, 5, 5, 9/10, 9/10, 0, none, none⟩] ∧
    (sortRows [⟨"a", "", "a", 1, 5, 5, 6/10, 6/10, 0, none, none⟩,
        ⟨"b", "", "b", 1, 5, 5, 9/10, 9/10, 0, none, none⟩]).Pairwise
      (fun a b => keyLE (rowKey b) (rowKey a) = true) ∧
    truncRows 1 (sortRows [⟨"a", "", "a", 1, 5, 5, 6/10, 6/10, 0, none, none⟩,
        ⟨"b", "", "b", 1, 5, 5, 9/10, 9/10, 0, none, none⟩]) =
      (sortRows [⟨"a", "", "a", 1, 5, 5, 6/10, 6/10, 0, none, none⟩,
        ⟨"b", "", "b", 1, 5, 5, 9/10, 9/10, 0, none, none⟩]).take 1 ∧
    truncRows 0 (sortRows [⟨"a", "", "a", 1, 5, 5, 6/10, 6/10, 0, none, none⟩,
        ⟨"b", "", "b", 1, 5, 5, 9/10, 9/10, 0, none, none⟩]) =
      sortRows [⟨"a", "", "a", 1, 5, 5, 6/10, 6/10, 0, none, none⟩,
        ⟨"b", "", "b", 1, 5, 5, 9/10, 9/10, 0, none, none⟩] := by
  obtain ⟨h1, h2, h3, h4⟩ := sort_and_truncate_spec
    [⟨"a", "", "a", 1, 5, 5, 6/10, 6/10, 0, none, none⟩,
      ⟨"b", "", "b", 1, 5, 5, 9/10, 9/10, 0, none, none⟩] 1
  exact ⟨h1, h2, h3 (by decide), h4⟩

theorem mem_filterRows (q : Option String) (rows : List Row) (r : Row)
    (h : r ∈ filterRows q rows) : r ∈ rows := by
  cases q with
  | none => exact h
  | some query =>
    by_cases hq : query = ""
    · simpa [filterRows, hq] using h
    · simp only [filterRows, hq, if_false] at h
      exact (List.mem_filter.mp h).1

/-- C5: every row of the emitted report has at least one positive
segment — a species whose `positive_segments` is zero never appears,
whatever the threshold, filter, truncation or input documents. -/
theorem report_rows_positive (threshold : ℚ) (obs_counter : String → ℕ)
    (q : Option String) (topN : ℤ) (docs : List ClsDoc) :
    (generate_report threshold obs_counter q topN docs).all
      (fun r => decide (1 ≤ r.positive_segments)) = true := by
  rw [List.all_eq_true]
  intro r hr
  unfold generate_report at hr
  have hr1 : r ∈ sortRows (filterRows q
      ((buildRows obs_counter (aggregate threshold docs)).map cleanRow)) := by
    unfold truncRows at hr
    split at hr
    · exact List.mem_of_mem_take hr
    · exact hr
  have hr2 : r ∈ filterRows q
      ((buildRows obs_counter (aggregate threshold docs)).map cleanRow) :=
    ((List.mergeSort_perm _ _).mem_iff).mp hr1
  have hr3 := mem_filterRows _ _ _ hr2
  obtain ⟨r', hr', hrr⟩ := List.mem_map.mp hr3
  unfold buildRows at hr'
  obtain ⟨p, hp, hpr⟩ := List.mem_map.mp hr'
  have hfil := (List.mem_filter.mp hp).2
  simp only [Bool.not_eq_true', decide_eq_false_iff_not, not_le] at hfil
  subst hpr
  subst hrr
  simp only [cleanRow, rowOfEntry, decide_eq_true_eq]
  omega

/-- C8: trigram similarity is symmetric, and any string with at least one
trigram has self-similarity exactly 1. -/
theorem similarity_symm_and_self (a b : String) :
    trigram_similarity a b = trigram_similarity b a ∧
    ((trigram_set a).Nonempty → trigram_similarity a a = 1) :=
  ⟨trigram_similarity_comm a b, fun h => trigram_similarity_self a h⟩

/-- C8 witness: symmetry at a concrete pair and self-similarity 1 for a
concrete string with trigrams. -/
theorem similarity_symm_and_self_witness :
    trigram_similarity "sparrow" "elephant" = trigram_similarity "elephant" "sparrow" ∧
    trigram_similarity "sparrow" "sparrow" = 1 :=
  ⟨(similarity_symm_and_self "sparrow" "elephant").1,
   (similarity_symm_and_self "sparrow" "elephant").2 (trigram_set_nonempty "sparrow")⟩

/-- C9 counterexample: the claim's own example input — the empty
string — does not yield zero trigrams: after two-space padding it yields
one, and the similarity of the empty string with itself is 1, not 0. -/
theorem zero_trigram_counterexample :
    (trigram_set "").Nonempty ∧ trigram_similarity "" "" = 1 :=
  ⟨trigram_set_nonempty "", trigram_similarity_self "" (trigram_set_nonempty "")⟩

/-- C9 amended: the code does return 0 when either trigram set is empty,
but the two-space padding means no string yields an empty trigram set, so
the zero-trigram guard never fires; every string has self-similarity 1. -/
theorem every_string_has_a_trigram (s : String) :
    (trigram_set s).Nonempty ∧ trigram_similarity s s = 1 :=
  ⟨trigram_set_nonempty s, trigram_similarity_self s (trigram_set_nonempty s)⟩

/-- C6 counterexample: a confidence of 2 — outside the expected
range [0,1] — is parsed by `safe_float` (as is 1.5) and the segment fully
participates in aggregation (`segments_total`, `confidence_n`, even
`positive_segments` at threshold 1 count it), instead of being treated
as absent. -/
theorem out_of_range_confidence_counterexample :
    safe_float (some (.num (3/2))) = some (3/2) ∧
    safe_float (some (.num 2)) = some 2 ∧
    (lookupA (processDoc 1 emptyAgg ⟨[("audio_id", .str "a1"),
        ("raw", .obj [("results", .arr [.obj [("label", .str "robin"),
          ("confidence", .num 2)]])])]⟩).entries "robin").map
      (fun e => (e.segments_total, e.confidence_n, e.positive_segments))
      = some (1, 1, 1) :=
  ⟨rfl, rfl, by decide⟩

/-- C6 amended: a missing or non-parseable confidence is treated as
absent — the segment does not participate in aggregation at all (and in
particular is never coerced to 0); out-of-range numeric values, however,
participate unclamped. -/
theorem absent_confidence_skips_segment (threshold : ℚ) (doc : ClsDoc)
    (geo : Json) (aid : Option Json) (st : Agg) (r : Json)
    (hc : safe_float (r.pyGet "confidence") = none) :
    processSegment threshold doc geo aid st r = st := by
  unfold processSegment
  split
  · rw [hc]
  · rfl

/-- C6 amended witness: a segment whose confidence field is the
non-numeric string `"n/a"` leaves the aggregation state unchanged. -/
theorem absent_confidence_skips_segment_witness :
    safe_float ((Json.obj [("label", .str "robin"),
      ("confidence", .str "n/a")]).pyGet "confidence") = none ∧
    processSegment (3/10) ⟨[]⟩ (.obj []) none emptyAgg
      (.obj [("label", .str "robin"), ("confidence", .str "n/a")]) = emptyAgg :=
  ⟨rfl, absent_confidence_skips_segment (3/10) ⟨[]⟩ (.obj []) none emptyAgg
    (.obj [("label", .str "robin"), ("confidence", .str "n/a")]) rfl⟩

/-- C7: normalization never raises — a payload that fails to parse
degrades to the raw-echo fallback, which yields no best label and
contributes zero segments to aggregation; a non-numeric score or
confidence becomes absent (`none`) rather than an error. -/
theorem normalizer_fails_soft (threshold : ℚ) (st : Agg) (text : String)
    (aid geo bl : Json) :
    processDoc threshold st ⟨[("audio_id", aid), ("geo", geo),
      ("raw", safe_json none text), ("best_label", bl)]⟩ = st ∧
    extract_best (safe_json none text) = (none, none) ∧
    extract_best (.obj [("best", .obj [("label", .str "sparrow"),
      ("score", .str "very high")])]) = (some (.str "sparrow"), none) ∧
    safe_float (some (.str "very high")) = none ∧
    safe_float none = none :=
  ⟨rfl, rfl, rfl, rfl, rfl⟩

/-- C10: a payload carrying its predictions only under a `best` object or
a `predictions` list — shapes the normalizer accepts for best-label
extraction — contributes zero segments to the report aggregation, which
reads only the top-level `results` list of the raw payload. -/
theorem only_results_list_aggregated (threshold : ℚ) (st : Agg)
    (L : String) (q : ℚ) (aid geo : Json) (hL : L ≠ "") :
    extract_best (.obj [("best", .obj [("label", .str L), ("score", .num q)])])
      = (some (.str L), some q) ∧
    processDoc threshold st ⟨[("audio_id", aid), ("geo", geo),
      ("raw", .obj [("best", .obj [("label", .str L), ("score", .num q)])])]⟩ = st ∧
    extract_best (.obj [("predictions",
        .arr [.obj [("label", .str L), ("score", .num q)]])])
      = (some (.str L), some q) ∧
    processDoc threshold st ⟨[("audio_id", aid), ("geo", geo),
      ("raw", .obj [("predictions",
        .arr [.obj [("label", .str L), ("score", .num q)]])])]⟩ = st := by
  refine ⟨?_, rfl, ?_, rfl⟩
  · simp [extract_best, bestFields, Json.pyGet, lookupA, pyOrV, Json.truthy,
      Json.isObj, hL, pyFloat?]
  · simp [extract_best, bestFields, Json.pyGet, lookupA, pyOrV, Json.truthy,
      Json.isObj, hL, pyFloat?]

/-- C10 witness: the two shapes at a concrete label and score. -/
theorem only_results_list_aggregated_witness :
    extract_best (.obj [("best", .obj [("label", .str "robin"),
        ("score", .num (9/10))])]) = (some (.str "robin"), some (9/10)) ∧
    processDoc (3/10) emptyAgg ⟨[("audio_id", .null), ("geo", .null),
      ("raw", .obj [("best", .obj [("label", .str "robin"),
        ("score", .num (9/10))])])]⟩ = emptyAgg ∧
    extract_best (.obj [("predictions",
        .arr [.obj [("label", .str "robin"), ("score", .num (9/10))]])])
      = (some (.str "robin"), some (9/10)) ∧
    processDoc (3/10) emptyAgg ⟨[("audio_id", .null), ("geo", .null),
      ("raw", .obj [("predictions",
        .arr [.obj [("label", .str "robin"), ("score", .num (9/10))]])])]⟩
      = emptyAgg :=
  only_results_list_aggregated (3/10) emptyAgg "robin" (9/10) .null .null
    (by decide)
